import Mathlib

/-!
Verification of `jupyterlab/labextensions.py`, the Jupyter lab-extension
command-line dispatcher.

The file is a thin orchestration layer: each subcommand application class
(`InstallLabExtensionApp`, `LinkLabExtensionApp`, `UnlinkLabExtensionApp`,
`UninstallLabExtensionApp`, `ListLabExtensionsApp`, `EnableLabExtensionsApp`,
`DisableLabExtensionsApp`) has a `start` method that makes a sequence of
calls to an external collaborator module (`.commands`) and optionally a
`build` call.  We embed each `start` method as a function that, given the
collaborator's behaviour (an oracle assigning each call an outcome), returns
the ordered trace of collaborator calls actually made together with the
invocation's final outcome (normal return, or the uncaught exception that
propagated).

Python semantics mirrored in the embedding:
  * `self.extra_args or [os.getcwd()]` : an empty argument list is falsy, so
    it is replaced by the singleton list holding the current working
    directory (`defaultArgs`).
  * a list comprehension `[f(arg) for arg in args]` evaluates `f` on every
    element in order, eagerly; the first exception raised propagates and the
    remaining elements are not evaluated (`runCalls`, `runBoolCalls`).
  * `any(list)` is applied to the already fully built list of booleans.
  * the rollback `for` loop calls the rollback operation on each element in
    order; an exception propagates immediately and, because the loop body is
    inside the `except` handler, replaces the pending build error
    (`runRollback`).
-/

/-- Exceptions are identified by a message string. -/
abbrev Err := String

/-- One collaborator call made by a `start` method, in the order issued.
`buildCall` records the `clean_staging` keyword argument. -/
inductive Event where
  | installExt (id : String)
  | uninstallExt (id : String)
  | linkPkg (id : String)
  | unlinkPkg (id : String)
  | enableExt (id : String)
  | disableExt (id : String)
  | listExts
  | buildCall (cleanStaging : Bool)
deriving DecidableEq, Repr

/-- The external collaborator module `.commands`, as an oracle: each function
maps the call's arguments to its outcome.  `none` / `Except.ok` means the call
returns normally; `some e` / `Except.error e` means it raises exception `e`.
`uninstall_extension` and `unlink_package` return a `changed` boolean.
The `logger` argument never influences control flow and is omitted. -/
structure Collab where
  install_extension : String → String → Option Err
  uninstall_extension : String → String → Except Err Bool
  link_package : String → String → Option Err
  unlink_package : String → String → Except Err Bool
  enable_extension : String → String → Option Err
  disable_extension : String → String → Option Err
  list_extensions : String → Option Err
  build : String → Bool → Option Err

/-- `self.extra_args = self.extra_args or [os.getcwd()]`: an empty list is
falsy in Python, so it defaults to the singleton current working directory. -/
def defaultArgs (cwd : String) (extraArgs : List String) : List String :=
  if extraArgs.isEmpty then [cwd] else extraArgs

/-- A list comprehension of unit-returning collaborator calls:
`[call(arg) for arg in args]`.  Each call is logged as `ev arg`; the first
exception propagates and stops the iteration. -/
def runCalls (call : String → Option Err) (ev : String → Event) :
    List String → List Event × Option Err
  | [] => ([], none)
  | a :: rest =>
    match call a with
    | some e => ([ev a], some e)
    | none =>
      let r := runCalls call ev rest
      (ev a :: r.1, r.2)

/-- A list comprehension of boolean-returning collaborator calls:
`[call(arg) for arg in args]` as used inside `any([...])`.  On success it
returns the full list of booleans, having made every call. -/
def runBoolCalls (call : String → Except Err Bool) (ev : String → Event) :
    List String → List Event × Except Err (List Bool)
  | [] => ([], Except.ok [])
  | a :: rest =>
    match call a with
    | Except.error e => ([ev a], Except.error e)
    | Except.ok b =>
      let r := runBoolCalls call ev rest
      (ev a :: r.1,
        match r.2 with
        | Except.error e => Except.error e
        | Except.ok bs => Except.ok (b :: bs))

/-- The rollback `for` loop: `for arg in self.extra_args: call(arg, ...)`.
Returned booleans are discarded; an exception propagates immediately. -/
def runRollback (call : String → Except Err Bool) (ev : String → Event) :
    List String → List Event × Option Err
  | [] => ([], none)
  | a :: rest =>
    match call a with
    | Except.error e => ([ev a], some e)
    | Except.ok _ =>
      let r := runRollback call ev rest
      (ev a :: r.1, r.2)

/-- `InstallLabExtensionApp.start`: default the arguments, install each, and
if `should_build`, build; on build failure uninstall every argument and
re-raise the build error (a rollback exception replaces it). -/
def installStart (c : Collab) (cwd appDir : String) (extraArgs : List String)
    (shouldBuild shouldClean : Bool) : List Event × Option Err :=
  let args := defaultArgs cwd extraArgs
  let r₁ := runCalls (fun a => c.install_extension a appDir) Event.installExt args
  match r₁.2 with
  | some e => (r₁.1, some e)
  | none =>
    if shouldBuild then
      match c.build appDir shouldClean with
      | none => (r₁.1 ++ [Event.buildCall shouldClean], none)
      | some e =>
        let r₂ := runRollback (fun a => c.uninstall_extension a appDir)
          Event.uninstallExt args
        (r₁.1 ++ [Event.buildCall shouldClean] ++ r₂.1,
          match r₂.2 with
          | some e' => some e'
          | none => some e)
    else (r₁.1, none)

/-- `LinkLabExtensionApp.start`: like install, with `link_package` and
rollback via `unlink_package`. -/
def linkStart (c : Collab) (cwd appDir : String) (extraArgs : List String)
    (shouldBuild shouldClean : Bool) : List Event × Option Err :=
  let args := defaultArgs cwd extraArgs
  let r₁ := runCalls (fun a => c.link_package a appDir) Event.linkPkg args
  match r₁.2 with
  | some e => (r₁.1, some e)
  | none =>
    if shouldBuild then
      match c.build appDir shouldClean with
      | none => (r₁.1 ++ [Event.buildCall shouldClean], none)
      | some e =>
        let r₂ := runRollback (fun a => c.unlink_package a appDir)
          Event.unlinkPkg args
        (r₁.1 ++ [Event.buildCall shouldClean] ++ r₂.1,
          match r₂.2 with
          | some e' => some e'
          | none => some e)
    else (r₁.1, none)

/-- `UnlinkLabExtensionApp.start`:
`ans = any([unlink_package(arg, ...) for arg in self.extra_args])`, then
build only `if ans and self.should_build`. -/
def unlinkStart (c : Collab) (cwd appDir : String) (extraArgs : List String)
    (shouldBuild shouldClean : Bool) : List Event × Option Err :=
  let args := defaultArgs cwd extraArgs
  let r := runBoolCalls (fun a => c.unlink_package a appDir) Event.unlinkPkg args
  match r.2 with
  | Except.error e => (r.1, some e)
  | Except.ok bs =>
    if bs.any id && shouldBuild then
      (r.1 ++ [Event.buildCall shouldClean], c.build appDir shouldClean)
    else (r.1, none)

/-- `UninstallLabExtensionApp.start`: like unlink, with
`uninstall_extension`. -/
def uninstallStart (c : Collab) (cwd appDir : String) (extraArgs : List String)
    (shouldBuild shouldClean : Bool) : List Event × Option Err :=
  let args := defaultArgs cwd extraArgs
  let r := runBoolCalls (fun a => c.uninstall_extension a appDir)
    Event.uninstallExt args
  match r.2 with
  | Except.error e => (r.1, some e)
  | Except.ok bs =>
    if bs.any id && shouldBuild then
      (r.1 ++ [Event.buildCall shouldClean], c.build appDir shouldClean)
    else (r.1, none)

/-- `ListLabExtensionsApp.start`: a single `list_extensions` call. -/
def listStart (c : Collab) (appDir : String) : List Event × Option Err :=
  ([Event.listExts], c.list_extensions appDir)

/-- `EnableLabExtensionsApp.start`: enable each of `self.extra_args`
(no defaulting, and the build-related flags are never consulted). -/
def enableStart (c : Collab) (appDir : String) (extraArgs : List String)
    (_shouldBuild _shouldClean : Bool) : List Event × Option Err :=
  runCalls (fun a => c.enable_extension a appDir) Event.enableExt extraArgs

/-- `DisableLabExtensionsApp.start`: disable each of `self.extra_args`
(no defaulting, and the build-related flags are never consulted). -/
def disableStart (c : Collab) (appDir : String) (extraArgs : List String)
    (_shouldBuild _shouldClean : Bool) : List Event × Option Err :=
  runCalls (fun a => c.disable_extension a appDir) Event.disableExt extraArgs

/-- The keys of `LabExtensionApp.subcommands`, in declaration order. -/
def subcommandNames : List String :=
  ["install", "uninstall", "list", "link", "unlink", "enable", "disable"]

/-- Lexicographic comparison of character sequences by code point, the order
Python's `sorted` uses on these ASCII subcommand names. -/
def charListLe : List Char → List Char → Bool
  | [], _ => true
  | _ :: _, [] => false
  | a :: as, b :: bs =>
    if a.toNat < b.toNat then true
    else if b.toNat < a.toNat then false
    else charListLe as bs

/-- Lexicographic string comparison by code point. -/
def strLe (a b : String) : Bool :=
  charListLe a.toList b.toList

/-- Insert a string into an already sorted list, keeping ascending order. -/
def insertSorted (x : String) : List String → List String
  | [] => [x]
  | y :: ys => if strLe x y then x :: y :: ys else y :: insertSorted x ys

/-- Python's `sorted` on a list of strings: ascending lexicographic order,
modelled as insertion sort. -/
def sortStrings : List String → List String
  | [] => []
  | x :: xs => insertSorted x (sortStrings xs)

/-- The message passed to `sys.exit` when no subcommand is supplied:
`"Please supply at least one subcommand: %s" % ", ".join(sorted(subcommands))`. -/
def noSubcommandMessage : String :=
  "Please supply at least one subcommand: " ++
    String.intercalate ", " (sortStrings subcommandNames)

/-- `LabExtensionApp.start` when no subcommand was selected: per the source
comment, the superclass `start` returns without raising in that case, and
`sys.exit(message)` with a string argument prints the message and exits with
status code 1.  The pair is (exit code, message). -/
def labExtensionStartNoSubcommand : Nat × String :=
  (1, noSubcommandMessage)

/-- Whether an event is a `build` call. -/
def Event.isBuild : Event → Bool
  | .buildCall _ => true
  | _ => false

/-- Whether a trace contains a `build` call. -/
def hasBuild (tr : List Event) : Bool :=
  tr.any Event.isBuild

/-- Whether an event is an `install_extension` call. -/
def isInstallCall : Event → Bool
  | .installExt _ => true
  | _ => false

/-- Whether an event is a `link_package` call. -/
def isLinkCall : Event → Bool
  | .linkPkg _ => true
  | _ => false

/-- Whether an event is an `unlink_package` call. -/
def isUnlinkCall : Event → Bool
  | .unlinkPkg _ => true
  | _ => false

/-- Whether an event is an `uninstall_extension` call. -/
def isUninstallCall : Event → Bool
  | .uninstallExt _ => true
  | _ => false

/-- Oracle where every per-identifier call succeeds (uninstall/unlink report
a change) and the build fails with `"builderr"`. -/
def collabBuildFail : Collab where
  install_extension := fun _ _ => none
  uninstall_extension := fun _ _ => Except.ok true
  link_package := fun _ _ => none
  unlink_package := fun _ _ => Except.ok true
  enable_extension := fun _ _ => none
  disable_extension := fun _ _ => none
  list_extensions := fun _ => none
  build := fun _ _ => some "builderr"

/-- Oracle where every per-identifier call on the identifier `"bad"` raises
and the others succeed (reporting a change), and the build succeeds. -/
def collabBadId : Collab where
  install_extension := fun id _ => if id = "bad" then some "instboom" else none
  uninstall_extension := fun id _ =>
    if id = "bad" then Except.error "uninstboom" else Except.ok true
  link_package := fun id _ => if id = "bad" then some "linkboom" else none
  unlink_package := fun id _ =>
    if id = "bad" then Except.error "unlinkboom" else Except.ok true
  enable_extension := fun id _ => if id = "bad" then some "enboom" else none
  disable_extension := fun id _ => if id = "bad" then some "disboom" else none
  list_extensions := fun _ => none
  build := fun _ _ => none

/-- Oracle where installs and links succeed, the build fails with
`"builderr"`, and the rollback calls raise on the identifier `"bad"` but
succeed elsewhere. -/
def collabRollbackFail : Collab where
  install_extension := fun _ _ => none
  uninstall_extension := fun id _ =>
    if id = "bad" then Except.error "undoboom" else Except.ok true
  link_package := fun _ _ => none
  unlink_package := fun id _ =>
    if id = "bad" then Except.error "unlinkboom" else Except.ok true
  enable_extension := fun _ _ => none
  disable_extension := fun _ _ => none
  list_extensions := fun _ => none
  build := fun _ _ => some "builderr"

/-- Oracle where unlink/uninstall succeed, reporting a change exactly on the
identifier `"pkgA"`, and the build succeeds. -/
def collabChanged : Collab where
  install_extension := fun _ _ => none
  uninstall_extension := fun id _ => Except.ok (id = "pkgA")
  link_package := fun _ _ => none
  unlink_package := fun id _ => Except.ok (id = "pkgA")
  enable_extension := fun _ _ => none
  disable_extension := fun _ _ => none
  list_extensions := fun _ => none
  build := fun _ _ => none

theorem runCalls_all_ok (call : String → Option Err) (ev : String → Event)
    (args : List String) (h : ∀ a ∈ args, call a = none) :
    runCalls call ev args = (args.map ev, none) := by
  induction args with
  | nil => rfl
  | cons a rest ih =>
    have ha := h a (List.mem_cons_self a rest)
    have ih' := ih (fun x hx => h x (List.mem_cons_of_mem a hx))
    simp [runCalls, ha, ih']

theorem runRollback_all_ok (call : String → Except Err Bool) (ev : String → Event)
    (args : List String) (h : ∀ a ∈ args, ∃ r, call a = Except.ok r) :
    runRollback call ev args = (args.map ev, none) := by
  induction args with
  | nil => rfl
  | cons a rest ih =>
    obtain ⟨r, hr⟩ := h a (List.mem_cons_self a rest)
    have ih' := ih (fun x hx => h x (List.mem_cons_of_mem a hx))
    simp [runRollback, hr, ih']

theorem runBoolCalls_all_ok (call : String → Except Err Bool) (ev : String → Event)
    (args : List String) (h : ∀ a ∈ args, ∃ r, call a = Except.ok r) :
    ∃ bs, runBoolCalls call ev args = (args.map ev, Except.ok bs) ∧
      (bs.any id = true ↔ ∃ a ∈ args, call a = Except.ok true) := by
  induction args with
  | nil => exact ⟨[], by simp [runBoolCalls]⟩
  | cons a rest ih =>
    obtain ⟨r, hr⟩ := h a (List.mem_cons_self a rest)
    obtain ⟨bs, hrun, hiff⟩ := ih (fun x hx => h x (List.mem_cons_of_mem a hx))
    refine ⟨r :: bs, by simp [runBoolCalls, hr, hrun], ?_⟩
    simp only [List.any_cons, Bool.or_eq_true, id, hiff]
    constructor
    · rintro (hrt | ⟨x, hx, hxe⟩)
      · exact ⟨a, List.mem_cons_self a rest, hrt ▸ hr⟩
      · exact ⟨x, List.mem_cons_of_mem a hx, hxe⟩
    · rintro ⟨x, hx, hxe⟩
      rcases List.mem_cons.mp hx with rfl | hx'
      · rw [hr] at hxe
        exact Or.inl (Except.ok.inj hxe)
      · exact Or.inr ⟨x, hx', hxe⟩

theorem runCalls_first_fail (call : String → Option Err) (ev : String → Event)
    (pre : List String) (bad : String) (post : List String) (e : Err)
    (hpre : ∀ a ∈ pre, call a = none) (hbad : call bad = some e) :
    runCalls call ev (pre ++ bad :: post) = (pre.map ev ++ [ev bad], some e) := by
  induction pre with
  | nil => simp [runCalls, hbad]
  | cons a rest ih =>
    have ha := hpre a (List.mem_cons_self a rest)
    have ih' := ih (fun x hx => hpre x (List.mem_cons_of_mem a hx))
    simp [runCalls, ha, ih']

theorem runBoolCalls_first_fail (call : String → Except Err Bool)
    (ev : String → Event) (pre : List String) (bad : String)
    (post : List String) (e : Err)
    (hpre : ∀ a ∈ pre, ∃ r, call a = Except.ok r)
    (hbad : call bad = Except.error e) :
    runBoolCalls call ev (pre ++ bad :: post) =
      (pre.map ev ++ [ev bad], Except.error e) := by
  induction pre with
  | nil => simp [runBoolCalls, hbad]
  | cons a rest ih =>
    obtain ⟨r, hr⟩ := hpre a (List.mem_cons_self a rest)
    have ih' := ih (fun x hx => hpre x (List.mem_cons_of_mem a hx))
    simp [runBoolCalls, hr, ih']

theorem runRollback_first_fail (call : String → Except Err Bool)
    (ev : String → Event) (pre : List String) (bad : String)
    (post : List String) (e : Err)
    (hpre : ∀ a ∈ pre, ∃ r, call a = Except.ok r)
    (hbad : call bad = Except.error e) :
    runRollback call ev (pre ++ bad :: post) = (pre.map ev ++ [ev bad], some e) := by
  induction pre with
  | nil => simp [runRollback, hbad]
  | cons a rest ih =>
    obtain ⟨r, hr⟩ := hpre a (List.mem_cons_self a rest)
    have ih' := ih (fun x hx => hpre x (List.mem_cons_of_mem a hx))
    simp [runRollback, hr, ih']

theorem hasBuild_map (ev : String → Event) (args : List String)
    (hev : ∀ a, Event.isBuild (ev a) = false) :
    hasBuild (args.map ev) = false := by
  induction args with
  | nil => rfl
  | cons a rest ih => simp_all [hasBuild, List.any_cons, hev]

theorem hasBuild_runCalls (call : String → Option Err) (ev : String → Event)
    (args : List String) (hev : ∀ a, Event.isBuild (ev a) = false) :
    hasBuild (runCalls call ev args).1 = false := by
  induction args with
  | nil => rfl
  | cons a rest ih =>
    cases hc : call a with
    | none => simp_all [runCalls, hc, hasBuild, List.any_cons, hev]
    | some e => simp [runCalls, hc, hasBuild, hev]

theorem hasBuild_runBoolCalls (call : String → Except Err Bool)
    (ev : String → Event) (args : List String)
    (hev : ∀ a, Event.isBuild (ev a) = false) :
    hasBuild (runBoolCalls call ev args).1 = false := by
  induction args with
  | nil => rfl
  | cons a rest ih =>
    cases hc : call a with
    | ok r => simp_all [runBoolCalls, hc, hasBuild, List.any_cons, hev]
    | error e => simp [runBoolCalls, hc, hasBuild, hev]

theorem defaultArgs_of_ne_nil (cwd : String) (pre : List String) (bad : String)
    (post : List String) :
    defaultArgs cwd (pre ++ bad :: post) = pre ++ bad :: post := by
  cases pre <;> simp [defaultArgs]

/-- C1: for the install and link subcommands, when every per-identifier call
succeeds, the build fails with error `e`, and every rollback call succeeds,
the trace is exactly the per-identifier calls in argument order, then the
build call, then one rollback call per identifier in the same order, and the
original build error `e` is re-raised. -/
theorem install_link_rollback_on_build_failure
    (c : Collab) (cwd appDir : String) (extraArgs : List String)
    (cl : Bool) (e : Err)
    (hinst : ∀ a ∈ defaultArgs cwd extraArgs, c.install_extension a appDir = none)
    (hlink : ∀ a ∈ defaultArgs cwd extraArgs, c.link_package a appDir = none)
    (hbuild : c.build appDir cl = some e)
    (hundo : ∀ a ∈ defaultArgs cwd extraArgs,
      ∃ r, c.uninstall_extension a appDir = Except.ok r)
    (hunlk : ∀ a ∈ defaultArgs cwd extraArgs,
      ∃ r, c.unlink_package a appDir = Except.ok r) :
    installStart c cwd appDir extraArgs true cl =
      ((defaultArgs cwd extraArgs).map Event.installExt ++ [Event.buildCall cl]
        ++ (defaultArgs cwd extraArgs).map Event.uninstallExt, some e) ∧
    linkStart c cwd appDir extraArgs true cl =
      ((defaultArgs cwd extraArgs).map Event.linkPkg ++ [Event.buildCall cl]
        ++ (defaultArgs cwd extraArgs).map Event.unlinkPkg, some e) := by
  constructor
  · simp only [installStart]
    rw [runCalls_all_ok _ _ _ hinst, runRollback_all_ok _ _ _ hundo]
    simp [hbuild]
  · simp only [linkStart]
    rw [runCalls_all_ok _ _ _ hlink, runRollback_all_ok _ _ _ hunlk]
    simp [hbuild]

/-- C1 witness: `install extA extB` (and `link extA extB`) against the
oracle whose build fails: both identifiers are installed, the build is
attempted, both are uninstalled in order, and the build error surfaces. -/
theorem install_link_rollback_on_build_failure_witness :
    installStart collabBuildFail "/cwd" "/app" ["extA", "extB"] true false =
      ([Event.installExt "extA", Event.installExt "extB", Event.buildCall false,
        Event.uninstallExt "extA", Event.uninstallExt "extB"], some "builderr") ∧
    linkStart collabBuildFail "/cwd" "/app" ["extA", "extB"] true false =
      ([Event.linkPkg "extA", Event.linkPkg "extB", Event.buildCall false,
        Event.unlinkPkg "extA", Event.unlinkPkg "extB"], some "builderr") :=
  install_link_rollback_on_build_failure collabBuildFail "/cwd" "/app"
    ["extA", "extB"] false "builderr"
    (fun _ _ => rfl) (fun _ _ => rfl) rfl
    (fun _ _ => ⟨true, rfl⟩) (fun _ _ => ⟨true, rfl⟩)

/-- C4: during install/link rollback, if the rollback call for identifier
`bad` raises, that error propagates in place of the original build error, and
no rollback call after `bad` is made. -/
theorem rollback_failure_replaces_build_error
    (c : Collab) (cwd appDir : String) (pre : List String) (bad : String)
    (post : List String) (cl : Bool) (e eU eL : Err)
    (hinst : ∀ a ∈ pre ++ bad :: post, c.install_extension a appDir = none)
    (hlink : ∀ a ∈ pre ++ bad :: post, c.link_package a appDir = none)
    (hbuild : c.build appDir cl = some e)
    (hup : ∀ a ∈ pre, ∃ r, c.uninstall_extension a appDir = Except.ok r)
    (hub : c.uninstall_extension bad appDir = Except.error eU)
    (hlp : ∀ a ∈ pre, ∃ r, c.unlink_package a appDir = Except.ok r)
    (hlb : c.unlink_package bad appDir = Except.error eL) :
    installStart c cwd appDir (pre ++ bad :: post) true cl =
      ((pre ++ bad :: post).map Event.installExt ++ [Event.buildCall cl]
        ++ (pre.map Event.uninstallExt ++ [Event.uninstallExt bad]), some eU) ∧
    linkStart c cwd appDir (pre ++ bad :: post) true cl =
      ((pre ++ bad :: post).map Event.linkPkg ++ [Event.buildCall cl]
        ++ (pre.map Event.unlinkPkg ++ [Event.unlinkPkg bad]), some eL) := by
  constructor
  · simp only [installStart, defaultArgs_of_ne_nil]
    rw [runCalls_all_ok _ _ _ hinst, runRollback_first_fail _ _ _ _ _ _ hup hub]
    simp [hbuild]
  · simp only [linkStart, defaultArgs_of_ne_nil]
    rw [runCalls_all_ok _ _ _ hlink, runRollback_first_fail _ _ _ _ _ _ hlp hlb]
    simp [hbuild]

/-- C4 witness: `install okA bad okB` (and link) against the oracle whose
build fails and whose rollback raises on `bad`: the rollback error replaces
the build error and `okB` is never rolled back. -/
theorem rollback_failure_replaces_build_error_witness :
    installStart collabRollbackFail "/cwd" "/app" ["okA", "bad", "okB"] true false =
      ([Event.installExt "okA", Event.installExt "bad", Event.installExt "okB",
        Event.buildCall false, Event.uninstallExt "okA", Event.uninstallExt "bad"],
        some "undoboom") ∧
    linkStart collabRollbackFail "/cwd" "/app" ["okA", "bad", "okB"] true false =
      ([Event.linkPkg "okA", Event.linkPkg "bad", Event.linkPkg "okB",
        Event.buildCall false, Event.unlinkPkg "okA", Event.unlinkPkg "bad"],
        some "unlinkboom") :=
  rollback_failure_replaces_build_error collabRollbackFail "/cwd" "/app"
    ["okA"] "bad" ["okB"] false "builderr" "undoboom" "unlinkboom"
    (fun _ _ => rfl) (fun _ _ => rfl) rfl
    (by intro a ha; rw [List.mem_singleton] at ha; subst ha; exact ⟨true, rfl⟩)
    rfl
    (by intro a ha; rw [List.mem_singleton] at ha; subst ha; exact ⟨true, rfl⟩)
    rfl

/-- C2: for the unlink and uninstall subcommands, when no per-identifier call
raises, the build call appears in the trace exactly when `should_build` is
true and at least one per-identifier call reported `changed = true`. -/
theorem unlink_uninstall_build_iff_changed
    (c : Collab) (cwd appDir : String) (extraArgs : List String) (b cl : Bool)
    (hu : ∀ a ∈ defaultArgs cwd extraArgs,
      ∃ r, c.unlink_package a appDir = Except.ok r)
    (hr : ∀ a ∈ defaultArgs cwd extraArgs,
      ∃ r, c.uninstall_extension a appDir = Except.ok r) :
    (hasBuild (unlinkStart c cwd appDir extraArgs b cl).1 = true ↔
      b = true ∧ ∃ a ∈ defaultArgs cwd extraArgs,
        c.unlink_package a appDir = Except.ok true) ∧
    (hasBuild (uninstallStart c cwd appDir extraArgs b cl).1 = true ↔
      b = true ∧ ∃ a ∈ defaultArgs cwd extraArgs,
        c.uninstall_extension a appDir = Except.ok true) := by
  constructor
  · obtain ⟨bs, hrun, hiff⟩ := runBoolCalls_all_ok
      (fun a => c.unlink_package a appDir) Event.unlinkPkg
      (defaultArgs cwd extraArgs) hu
    have hm : hasBuild ((defaultArgs cwd extraArgs).map Event.unlinkPkg) = false :=
      hasBuild_map _ _ (fun _ => rfl)
    simp only [unlinkStart, hrun]
    rw [← hiff]
    cases hany : bs.any id <;> cases b <;>
      simp [hany, hm, hasBuild, List.any_append, Event.isBuild]
  · obtain ⟨bs, hrun, hiff⟩ := runBoolCalls_all_ok
      (fun a => c.uninstall_extension a appDir) Event.uninstallExt
      (defaultArgs cwd extraArgs) hr
    have hm : hasBuild ((defaultArgs cwd extraArgs).map Event.uninstallExt) = false :=
      hasBuild_map _ _ (fun _ => rfl)
    simp only [uninstallStart, hrun]
    rw [← hiff]
    cases hany : bs.any id <;> cases b <;>
      simp [hany, hm, hasBuild, List.any_append, Event.isBuild]

/-- C2 witness: `unlink pkgA pkgB` (and uninstall) against the oracle where
only `pkgA` reports a change, with build enabled: the build call is made, and
the characterising iff holds at this concrete input. -/
theorem unlink_uninstall_build_iff_changed_witness :
    (hasBuild (unlinkStart collabChanged "/cwd" "/app" ["pkgA", "pkgB"] true false).1 = true ↔
      true = true ∧ ∃ a ∈ defaultArgs "/cwd" ["pkgA", "pkgB"],
        collabChanged.unlink_package a "/app" = Except.ok true) ∧
    (hasBuild (uninstallStart collabChanged "/cwd" "/app" ["pkgA", "pkgB"] true false).1 = true ↔
      true = true ∧ ∃ a ∈ defaultArgs "/cwd" ["pkgA", "pkgB"],
        collabChanged.uninstall_extension a "/app" = Except.ok true) :=
  unlink_uninstall_build_iff_changed collabChanged "/cwd" "/app"
    ["pkgA", "pkgB"] true false
    (fun _ _ => ⟨_, rfl⟩) (fun _ _ => ⟨_, rfl⟩)

/-- C9: for the unlink and uninstall subcommands, when no per-identifier call
raises, every identifier in the (defaulted) list gets its collaborator call,
in order — the trace is the full list of per-identifier calls followed only by
a possible build call, so the aggregation never skips a call. -/
theorem any_changed_calls_every_identifier
    (c : Collab) (cwd appDir : String) (extraArgs : List String) (b cl : Bool)
    (hu : ∀ a ∈ defaultArgs cwd extraArgs,
      ∃ r, c.unlink_package a appDir = Except.ok r)
    (hr : ∀ a ∈ defaultArgs cwd extraArgs,
      ∃ r, c.uninstall_extension a appDir = Except.ok r) :
    (∃ tail, (unlinkStart c cwd appDir extraArgs b cl).1 =
        (defaultArgs cwd extraArgs).map Event.unlinkPkg ++ tail ∧
        ∀ x ∈ tail, ∃ b', x = Event.buildCall b') ∧
    (∃ tail, (uninstallStart c cwd appDir extraArgs b cl).1 =
        (defaultArgs cwd extraArgs).map Event.uninstallExt ++ tail ∧
        ∀ x ∈ tail, ∃ b', x = Event.buildCall b') := by
  constructor
  · obtain ⟨bs, hrun, -⟩ := runBoolCalls_all_ok
      (fun a => c.unlink_package a appDir) Event.unlinkPkg
      (defaultArgs cwd extraArgs) hu
    simp only [unlinkStart, hrun]
    cases hc : bs.any id && b with
    | false => exact ⟨[], by simp [hc], by simp⟩
    | true =>
      refine ⟨[Event.buildCall cl], by simp [hc], ?_⟩
      intro x hx
      rw [List.mem_singleton] at hx
      exact ⟨cl, hx⟩
  · obtain ⟨bs, hrun, -⟩ := runBoolCalls_all_ok
      (fun a => c.uninstall_extension a appDir) Event.uninstallExt
      (defaultArgs cwd extraArgs) hr
    simp only [uninstallStart, hrun]
    cases hc : bs.any id && b with
    | false => exact ⟨[], by simp [hc], by simp⟩
    | true =>
      refine ⟨[Event.buildCall cl], by simp [hc], ?_⟩
      intro x hx
      rw [List.mem_singleton] at hx
      exact ⟨cl, hx⟩

/-- C9 witness: `unlink pkgA pkgB` (and uninstall) against the oracle where
`pkgA` reports a change: the call for `pkgB`, after the one that already
returned true, is still made. -/
theorem any_changed_calls_every_identifier_witness :
    (∃ tail, (unlinkStart collabChanged "/cwd" "/app" ["pkgA", "pkgB"] true false).1 =
        [Event.unlinkPkg "pkgA", Event.unlinkPkg "pkgB"] ++ tail ∧
        ∀ x ∈ tail, ∃ b', x = Event.buildCall b') ∧
    (∃ tail, (uninstallStart collabChanged "/cwd" "/app" ["pkgA", "pkgB"] true false).1 =
        [Event.uninstallExt "pkgA", Event.uninstallExt "pkgB"] ++ tail ∧
        ∀ x ∈ tail, ∃ b', x = Event.buildCall b') :=
  any_changed_calls_every_identifier collabChanged "/cwd" "/app"
    ["pkgA", "pkgB"] true false
    (fun _ _ => ⟨_, rfl⟩) (fun _ _ => ⟨_, rfl⟩)

/-- C3: for the unlink, uninstall, enable, and disable subcommands, when the
calls before `bad` succeed and the call on `bad` raises, the invocation stops
at `bad`: its trace is the successful calls then the failing one, the raised
error is the outcome, and in particular no build call is made. -/
theorem first_failure_stops_and_skips_build
    (c : Collab) (cwd appDir : String) (pre : List String) (bad : String)
    (post : List String) (b cl : Bool) (e₁ e₂ e₃ e₄ : Err)
    (h1p : ∀ a ∈ pre, ∃ r, c.unlink_package a appDir = Except.ok r)
    (h1b : c.unlink_package bad appDir = Except.error e₁)
    (h2p : ∀ a ∈ pre, ∃ r, c.uninstall_extension a appDir = Except.ok r)
    (h2b : c.uninstall_extension bad appDir = Except.error e₂)
    (h3p : ∀ a ∈ pre, c.enable_extension a appDir = none)
    (h3b : c.enable_extension bad appDir = some e₃)
    (h4p : ∀ a ∈ pre, c.disable_extension a appDir = none)
    (h4b : c.disable_extension bad appDir = some e₄) :
    unlinkStart c cwd appDir (pre ++ bad :: post) b cl =
      (pre.map Event.unlinkPkg ++ [Event.unlinkPkg bad], some e₁) ∧
    uninstallStart c cwd appDir (pre ++ bad :: post) b cl =
      (pre.map Event.uninstallExt ++ [Event.uninstallExt bad], some e₂) ∧
    enableStart c appDir (pre ++ bad :: post) b cl =
      (pre.map Event.enableExt ++ [Event.enableExt bad], some e₃) ∧
    disableStart c appDir (pre ++ bad :: post) b cl =
      (pre.map Event.disableExt ++ [Event.disableExt bad], some e₄) := by
  refine ⟨?_, ?_, ?_, ?_⟩
  · simp only [unlinkStart, defaultArgs_of_ne_nil]
    rw [runBoolCalls_first_fail _ _ _ _ _ _ h1p h1b]
  · simp only [uninstallStart, defaultArgs_of_ne_nil]
    rw [runBoolCalls_first_fail _ _ _ _ _ _ h2p h2b]
  · simp only [enableStart]
    rw [runCalls_first_fail _ _ _ _ _ _ h3p h3b]
  · simp only [disableStart]
    rw [runCalls_first_fail _ _ _ _ _ _ h4p h4b]

/-- C3 witness: `unlink okA bad okB` (and uninstall/enable/disable) against
the oracle that raises on `bad`: processing stops at `bad`, `okB` is never
attempted, and no build call is made. -/
theorem first_failure_stops_and_skips_build_witness :
    unlinkStart collabBadId "/cwd" "/app" ["okA", "bad", "okB"] true false =
      ([Event.unlinkPkg "okA", Event.unlinkPkg "bad"], some "unlinkboom") ∧
    uninstallStart collabBadId "/cwd" "/app" ["okA", "bad", "okB"] true false =
      ([Event.uninstallExt "okA", Event.uninstallExt "bad"], some "uninstboom") ∧
    enableStart collabBadId "/app" ["okA", "bad", "okB"] true false =
      ([Event.enableExt "okA", Event.enableExt "bad"], some "enboom") ∧
    disableStart collabBadId "/app" ["okA", "bad", "okB"] true false =
      ([Event.disableExt "okA", Event.disableExt "bad"], some "disboom") :=
  first_failure_stops_and_skips_build collabBadId "/cwd" "/app"
    ["okA"] "bad" ["okB"] true false
    "unlinkboom" "uninstboom" "enboom" "disboom"
    (by intro a ha; rw [List.mem_singleton] at ha; subst ha; exact ⟨true, rfl⟩)
    rfl
    (by intro a ha; rw [List.mem_singleton] at ha; subst ha; exact ⟨true, rfl⟩)
    rfl
    (fun a ha => by rw [List.mem_singleton] at ha; subst ha; rfl)
    rfl
    (fun a ha => by rw [List.mem_singleton] at ha; subst ha; rfl)
    rfl

/-- C5: with `should_build` false (the `--no-build` flag), the install, link,
unlink, and uninstall subcommands never make a build call, for every oracle,
identifier list, and clean flag. -/
theorem no_build_flag_suppresses_build
    (c : Collab) (cwd appDir : String) (extraArgs : List String) (cl : Bool) :
    hasBuild (installStart c cwd appDir extraArgs false cl).1 = false ∧
    hasBuild (linkStart c cwd appDir extraArgs false cl).1 = false ∧
    hasBuild (unlinkStart c cwd appDir extraArgs false cl).1 = false ∧
    hasBuild (uninstallStart c cwd appDir extraArgs false cl).1 = false := by
  refine ⟨?_, ?_, ?_, ?_⟩
  · have h := hasBuild_runCalls (fun a => c.install_extension a appDir)
      Event.installExt (defaultArgs cwd extraArgs) (fun _ => rfl)
    simp only [installStart]
    split
    · exact h
    · simp [h]
  · have h := hasBuild_runCalls (fun a => c.link_package a appDir)
      Event.linkPkg (defaultArgs cwd extraArgs) (fun _ => rfl)
    simp only [linkStart]
    split
    · exact h
    · simp [h]
  · have h := hasBuild_runBoolCalls (fun a => c.unlink_package a appDir)
      Event.unlinkPkg (defaultArgs cwd extraArgs) (fun _ => rfl)
    simp only [unlinkStart]
    split
    · exact h
    · simp [h]
  · have h := hasBuild_runBoolCalls (fun a => c.uninstall_extension a appDir)
      Event.uninstallExt (defaultArgs cwd extraArgs) (fun _ => rfl)
    simp only [uninstallStart]
    split
    · exact h
    · simp [h]

/-- C7: the enable and disable subcommands never make a build call, for every
oracle, identifier list, and setting of the flags. -/
theorem enable_disable_never_build
    (c : Collab) (appDir : String) (extraArgs : List String) (b cl : Bool) :
    hasBuild (enableStart c appDir extraArgs b cl).1 = false ∧
    hasBuild (disableStart c appDir extraArgs b cl).1 = false :=
  ⟨hasBuild_runCalls _ _ _ (fun _ => rfl),
   hasBuild_runCalls _ _ _ (fun _ => rfl)⟩

/-- C10: the enable and disable subcommands with an empty identifier list
make no collaborator call at all and return normally — the list is not
defaulted to the current working directory. -/
theorem enable_disable_empty_args_noop
    (c : Collab) (appDir : String) (b cl : Bool) :
    enableStart c appDir [] b cl = ([], none) ∧
    disableStart c appDir [] b cl = ([], none) :=
  ⟨rfl, rfl⟩

/-- C6: for install, link, unlink, and uninstall, an empty identifier list
behaves exactly as the singleton list holding the current working directory,
and the per-identifier collaborator call in the resulting trace is made
exactly once, on the current working directory. -/
theorem empty_args_default_to_cwd
    (c : Collab) (cwd appDir : String) (b cl : Bool) :
    installStart c cwd appDir [] b cl = installStart c cwd appDir [cwd] b cl ∧
    linkStart c cwd appDir [] b cl = linkStart c cwd appDir [cwd] b cl ∧
    unlinkStart c cwd appDir [] b cl = unlinkStart c cwd appDir [cwd] b cl ∧
    uninstallStart c cwd appDir [] b cl = uninstallStart c cwd appDir [cwd] b cl ∧
    (installStart c cwd appDir [] b cl).1.filter isInstallCall =
      [Event.installExt cwd] ∧
    (linkStart c cwd appDir [] b cl).1.filter isLinkCall =
      [Event.linkPkg cwd] ∧
    (unlinkStart c cwd appDir [] b cl).1.filter isUnlinkCall =
      [Event.unlinkPkg cwd] ∧
    (uninstallStart c cwd appDir [] b cl).1.filter isUninstallCall =
      [Event.uninstallExt cwd] := by
  refine ⟨rfl, rfl, rfl, rfl, ?_, ?_, ?_, ?_⟩
  · cases h1 : c.install_extension cwd appDir with
    | some e => simp [installStart, defaultArgs, runCalls, h1, isInstallCall]
    | none =>
      cases b with
      | false => simp [installStart, defaultArgs, runCalls, h1, isInstallCall]
      | true =>
        cases h2 : c.build appDir cl with
        | none => simp [installStart, defaultArgs, runCalls, h1, h2, isInstallCall]
        | some e =>
          cases h3 : c.uninstall_extension cwd appDir with
          | ok r =>
            simp [installStart, defaultArgs, runCalls, runRollback, h1, h2, h3,
              isInstallCall]
          | error e2 =>
            simp [installStart, defaultArgs, runCalls, runRollback, h1, h2, h3,
              isInstallCall]
  · cases h1 : c.link_package cwd appDir with
    | some e => simp [linkStart, defaultArgs, runCalls, h1, isLinkCall]
    | none =>
      cases b with
      | false => simp [linkStart, defaultArgs, runCalls, h1, isLinkCall]
      | true =>
        cases h2 : c.build appDir cl with
        | none => simp [linkStart, defaultArgs, runCalls, h1, h2, isLinkCall]
        | some e =>
          cases h3 : c.unlink_package cwd appDir with
          | ok r =>
            simp [linkStart, defaultArgs, runCalls, runRollback, h1, h2, h3,
              isLinkCall]
          | error e2 =>
            simp [linkStart, defaultArgs, runCalls, runRollback, h1, h2, h3,
              isLinkCall]
  · cases h1 : c.unlink_package cwd appDir with
    | error e => simp [unlinkStart, defaultArgs, runBoolCalls, h1, isUnlinkCall]
    | ok r =>
      cases hc : r && b with
      | false =>
        simp [unlinkStart, defaultArgs, runBoolCalls, h1, hc, isUnlinkCall]
      | true =>
        simp [unlinkStart, defaultArgs, runBoolCalls, h1, hc, isUnlinkCall,
          Event.isBuild]
  · cases h1 : c.uninstall_extension cwd appDir with
    | error e =>
      simp [uninstallStart, defaultArgs, runBoolCalls, h1, isUninstallCall]
    | ok r =>
      cases hc : r && b with
      | false =>
        simp [uninstallStart, defaultArgs, runBoolCalls, h1, hc, isUninstallCall]
      | true =>
        simp [uninstallStart, defaultArgs, runBoolCalls, h1, hc, isUninstallCall,
          Event.isBuild]

set_option maxRecDepth 4000 in
/-- C8: invoking the program with no subcommand exits with status 1 (non-zero)
after emitting a message that contains all seven valid subcommand names. -/
theorem no_subcommand_exits_nonzero_listing_all :
    labExtensionStartNoSubcommand.1 = 1 ∧
    subcommandNames.length = 7 ∧
    ("install".toList <:+: labExtensionStartNoSubcommand.2.toList) ∧
    ("uninstall".toList <:+: labExtensionStartNoSubcommand.2.toList) ∧
    ("list".toList <:+: labExtensionStartNoSubcommand.2.toList) ∧
    ("link".toList <:+: labExtensionStartNoSubcommand.2.toList) ∧
    ("unlink".toList <:+: labExtensionStartNoSubcommand.2.toList) ∧
    ("enable".toList <:+: labExtensionStartNoSubcommand.2.toList) ∧
    ("disable".toList <:+: labExtensionStartNoSubcommand.2.toList) := by
  decide
